import Mathlib

/-!
Verification of the scan-orchestration and attendance-ledger core of the
EduScan classroom-attendance application (a React/TypeScript repository).

The definitions below are a shallow embedding of the TypeScript source:

* `types.ts`               → `Student`, `User`, `AttendanceStatus`,
                             `AttendanceRecord`, `ScanResult`
* `App.tsx`                → `SUPER_ADMIN`, `filteredStudents`,
                             `filteredRecords`, `handleAddUser`,
                             `handleEditUser`, `handleDeleteUser`,
                             `handleMarkAttendance`
* `components/Reports.tsx` → `monthlyStats`
* `components/LiveScanner.tsx` → `ScannerState`, `addLog`,
                             `processScanResult`, `handleScan`, `autoTick`
* `services/geminiService.ts` → `forwardedReferences`
* `components/AdminPanel.tsx` → `UserOp`, `uiAllowed`, `applyUserOp`,
                             `runUserOps`

Modelling conventions:

* A record's `timestamp` is stored in the source as a locale time-of-day
  string and is only ever consumed through
  `new Date('1970/01/01 ' + t).getTime()`, i.e. as the number of
  milliseconds of that time-of-day anchored to the fixed epoch date.  We
  embed the field directly as that integer number of milliseconds.
* A record's `date` is an ISO `YYYY-MM-DD` string, consumed either by
  string equality or by parsing out the year and month; we embed it as a
  `(year, month, day)` triple whose structural equality coincides with the
  string equality of well-formed ISO dates.
* JavaScript truthiness tests on nullable strings (`if (result.matchId)`,
  `currentUser.assignedClass &&`) are embedded as
  "present and nonempty" tests on `Option String`.
* `confidence` is an opaque pass-through numeric value; we embed it as `ℚ`.
-/

/-- Attendance status enumeration from `types.ts`. -/
inductive AttendanceStatus where
  | PRESENT
  | ABSENT
  | PROXY_ATTEMPT
deriving DecidableEq

/-- Registered student, from `types.ts` (`photoUrl` and `registeredAt` are
opaque strings). -/
structure Student where
  id : String
  name : String
  rollNumber : String
  classSection : String
  photoUrl : String
  registeredAt : String
deriving DecidableEq

/-- Role of an application user. -/
inductive Role where
  | admin
  | teacher
deriving DecidableEq

/-- Application user from `types.ts`; `assignedClass` is optional and only
used for teachers. -/
structure User where
  username : String
  password : String
  name : String
  role : Role
  assignedClass : Option String
deriving DecidableEq

/-- Calendar date, embedding the `YYYY-MM-DD` ISO date string of the
source (see the modelling conventions above). -/
structure CalDate where
  year : Nat
  month : Nat
  day : Nat
deriving DecidableEq

/-- Attendance event from `types.ts`.  `timestamp` is the time-of-day in
milliseconds anchored to `1970/01/01` (how the source consumes the stored
time string); `emotion` and `notes` are the optional free-text fields. -/
structure AttendanceRecord where
  id : String
  studentId : String
  studentName : String
  timestamp : Int
  date : CalDate
  status : AttendanceStatus
  confidence : ℚ
  emotion : Option String
  notes : Option String
deriving DecidableEq

/-- Analyzer verdict from `types.ts` (`ScanResult`): `matchId` is a
nullable string. -/
structure ScanResult where
  matchId : Option String
  confidence : ℚ
  isRealPerson : Bool
  emotion : String
  description : String
deriving DecidableEq

/-- JavaScript truthiness of a nullable string: truthy iff present and
nonempty. -/
def jsTruthy : Option String → Bool
  | none => false
  | some s => !(s == "")

/-- The bootstrap super-admin user hard-coded in `App.tsx`. -/
def SUPER_ADMIN : User :=
  { username := "prahald"
    password := "Prahlad@12"
    name := "Prahlad (Super Admin)"
    role := Role.admin
    assignedClass := none }

/-- The dedup probe of `handleMarkAttendance` (`App.tsx`): is there an
existing record with the same student, same date, and a time-of-day within
60000 ms of the candidate's?  Mirrors
`records.find(r => r.studentId === record.studentId && r.date === record.date && Math.abs(...) < 60000)`. -/
def findRecentRecord (records : List AttendanceRecord)
    (record : AttendanceRecord) : Option AttendanceRecord :=
  records.find? (fun r =>
    r.studentId == record.studentId &&
    r.date == record.date &&
    (r.timestamp - record.timestamp).natAbs < 60000)

/-- `handleMarkAttendance` from `App.tsx`: if a recent duplicate exists the
ledger is unchanged, otherwise the candidate is prepended
(`setRecords(prev => [record, ...prev])`). -/
def handleMarkAttendance (records : List AttendanceRecord)
    (record : AttendanceRecord) : List AttendanceRecord :=
  match findRecentRecord records record with
  | some _ => records
  | none => record :: records

/-- The dedup criterion of the spec, stated as a proposition over the
ledger: some existing event has the candidate's student id and date and a
time-of-day differing by strictly less than 60 seconds. -/
def IsDuplicateCandidate (records : List AttendanceRecord)
    (record : AttendanceRecord) : Prop :=
  ∃ r ∈ records, r.studentId = record.studentId ∧ r.date = record.date ∧
    (r.timestamp - record.timestamp).natAbs < 60000

theorem findRecentRecord_isSome_iff (records : List AttendanceRecord)
    (record : AttendanceRecord) :
    (findRecentRecord records record).isSome = true ↔
      IsDuplicateCandidate records record := by
  unfold findRecentRecord IsDuplicateCandidate
  rw [List.find?_isSome]
  constructor
  · rintro ⟨r, hr, hp⟩
    simp only [Bool.and_eq_true, beq_iff_eq, decide_eq_true_eq] at hp
    exact ⟨r, hr, hp.1.1, hp.1.2, hp.2⟩
  · rintro ⟨r, hr, h1, h2, h3⟩
    refine ⟨r, hr, ?_⟩
    simp only [Bool.and_eq_true, beq_iff_eq, decide_eq_true_eq]
    exact ⟨⟨h1, h2⟩, h3⟩

/-- C1: `append` rejects the candidate (ledger unchanged) iff an existing
event has the same studentId, the same date, and a time-of-day timestamp
within strictly less than 60 seconds; otherwise the candidate is inserted
at the head of the ledger. -/
theorem claim1_append_dedup (records : List AttendanceRecord)
    (record : AttendanceRecord) :
    (IsDuplicateCandidate records record →
        handleMarkAttendance records record = records) ∧
    (¬ IsDuplicateCandidate records record →
        handleMarkAttendance records record = record :: records) := by
  constructor
  · intro h
    rw [← findRecentRecord_isSome_iff] at h
    unfold handleMarkAttendance
    cases hf : findRecentRecord records record with
    | some r => rfl
    | none => rw [hf] at h; simp at h
  · intro h
    rw [← findRecentRecord_isSome_iff] at h
    unfold handleMarkAttendance
    cases hf : findRecentRecord records record with
    | some r => rw [hf] at h; simp at h
    | none => rfl

/-- A sample accepted event for the witnesses below. -/
def sampleEvent : AttendanceRecord :=
  { id := "1"
    studentId := "s101"
    studentName := "Asha"
    timestamp := 36000000
    date := { year := 2024, month := 5, day := 10 }
    status := AttendanceStatus.PRESENT
    confidence := 9/10
    emotion := some "Focused"
    notes := some "clear match" }

/-- A candidate 10 seconds after `sampleEvent`, same student and date. -/
def sampleDupCandidate : AttendanceRecord :=
  { sampleEvent with id := "2", timestamp := 36010000 }

/-- A candidate for a different student on the same date and time. -/
def sampleFreshCandidate : AttendanceRecord :=
  { sampleEvent with id := "3", studentId := "s102" }

/-- Witness for C1: a concrete duplicate (10 s later) is rejected, and a
concrete non-duplicate is prepended. -/
theorem claim1_append_dedup_witness :
    (IsDuplicateCandidate [sampleEvent] sampleDupCandidate ∧
      handleMarkAttendance [sampleEvent] sampleDupCandidate = [sampleEvent]) ∧
    (¬ IsDuplicateCandidate [sampleEvent] sampleFreshCandidate ∧
      handleMarkAttendance [sampleEvent] sampleFreshCandidate =
        [sampleFreshCandidate, sampleEvent]) := by
  have h1 : IsDuplicateCandidate [sampleEvent] sampleDupCandidate := by
    refine ⟨sampleEvent, by simp, ?_, ?_, ?_⟩ <;> decide
  have h2 : ¬ IsDuplicateCandidate [sampleEvent] sampleFreshCandidate := by
    rintro ⟨r, hr, h, -⟩
    simp only [List.mem_singleton] at hr
    subst hr
    revert h
    decide
  exact ⟨⟨h1, (claim1_append_dedup [sampleEvent] sampleDupCandidate).1 h1⟩,
    ⟨h2, (claim1_append_dedup [sampleEvent] sampleFreshCandidate).2 h2⟩⟩

/-- C5: the dedup check never compares events with differing `date`
values: a candidate whose date differs from every matching-student record
in the ledger is always accepted (prepended). -/
theorem claim5_no_cross_date_merge (records : List AttendanceRecord)
    (record : AttendanceRecord)
    (h : ∀ r ∈ records, r.date ≠ record.date) :
    handleMarkAttendance records record = record :: records := by
  apply (claim1_append_dedup records record).2
  rintro ⟨r, hr, -, hdate, -⟩
  exact h r hr hdate

/-- The cross-midnight pair of C5: an accepted event at date D with
time-of-day 23:59:50 (86390000 ms). -/
def lateNightEvent : AttendanceRecord :=
  { sampleEvent with
    id := "4"
    timestamp := 86390000
    date := { year := 2024, month := 5, day := 10 } }

/-- The candidate at date D+1 with time-of-day 00:00:05 (5000 ms), same
student. -/
def earlyMorningCandidate : AttendanceRecord :=
  { sampleEvent with
    id := "5"
    timestamp := 5000
    date := { year := 2024, month := 5, day := 11 } }

/-- Witness for C5: the first event is accepted into the empty ledger, and
the next-day candidate 15 real seconds later is also accepted because the
`date` partitions differ. -/
theorem claim5_no_cross_date_merge_witness :
    handleMarkAttendance [] lateNightEvent = [lateNightEvent] ∧
    handleMarkAttendance [lateNightEvent] earlyMorningCandidate =
      [earlyMorningCandidate, lateNightEvent] := by
  refine ⟨rfl, claim5_no_cross_date_merge _ _ ?_⟩
  intro r hr
  simp only [List.mem_singleton] at hr
  subst hr
  decide

/-- The verdict-processing section of `handleScan` in
`components/LiveScanner.tsx`: given the analyzer result and the visible
students, produce the (at most one) attendance event and the log lines the
handler emits.  `newId`, `nowMs` and `today` stand for `Date.now()`,
`toLocaleTimeString()` (as milliseconds of the day) and the current ISO
date.  Note `if (result.matchId)` in the source is a JS truthiness test,
so a `null` or empty-string `matchId` both take the no-match branch, and
an unrecognized non-empty `matchId` falls through silently (no log). -/
def processScanResult (students : List Student) (result : ScanResult)
    (newId : String) (nowMs : Int) (today : CalDate) :
    Option AttendanceRecord × List String :=
  match result.matchId with
  | some mid =>
    if mid == "" then
      (none, ["ℹ️ " ++ result.description])
    else
      match students.find? (fun s => s.id == mid) with
      | some student =>
        if result.isRealPerson then
          (some { id := newId
                  studentId := student.id
                  studentName := student.name
                  timestamp := nowMs
                  date := today
                  status := AttendanceStatus.PRESENT
                  confidence := result.confidence
                  emotion := some result.emotion
                  notes := some result.description },
            ["✅ Marked " ++ student.name ++ " as PRESENT"])
        else
          (some { id := newId
                  studentId := student.id
                  studentName := student.name
                  timestamp := nowMs
                  date := today
                  status := AttendanceStatus.PROXY_ATTEMPT
                  confidence := result.confidence
                  emotion := some result.emotion
                  notes := some ("Spoofing Detected: " ++ result.description) },
            ["⚠️ Proxy Attempt blocked for " ++ student.name])
      | none => (none, [])
  | none => (none, ["ℹ️ " ++ result.description])

/-- A student whose id is the empty string (constructible in the data
model, though the registration UI generates ids from `Date.now()`). -/
def emptyIdStudent : Student :=
  { id := ""
    name := "Ghost"
    rollNumber := "0"
    classSection := "10-A"
    photoUrl := ""
    registeredAt := "" }

/-- A verdict whose `matchId` is the empty string, passing liveness. -/
def emptyMatchVerdict : ScanResult :=
  { matchId := some ""
    confidence := 1/2
    isRealPerson := true
    emotion := "Calm"
    description := "match" }

/-- Counterexample to C2 as stated: with a reference set containing a
student whose id is the empty string and a verdict whose `matchId` is that
(resolving) empty string with `isRealPerson = true`, the claim demands one
PRESENT event, but the interpreter produces no event: the JS truthiness
test `if (result.matchId)` treats the empty string like `null`. -/
theorem claim2_counterexample :
    (∃ s ∈ [emptyIdStudent], some s.id = emptyMatchVerdict.matchId) ∧
    emptyMatchVerdict.isRealPerson = true ∧
    (processScanResult [emptyIdStudent] emptyMatchVerdict "9" 0
        { year := 2024, month := 5, day := 10 }).1 = none := by
  refine ⟨⟨emptyIdStudent, by simp, rfl⟩, rfl, rfl⟩

/-- C2 (amended): the verdict interpretation table, with the empty-string
`matchId` treated like `null`.  A `null` or empty `matchId` produces no
event; a non-empty `matchId` matching no student produces no event; a
non-empty resolving `matchId` produces exactly one event — PRESENT with
the verdict's confidence, emotion and `notes = description` when
`isRealPerson`, else PROXY_ATTEMPT with `notes` equal to
`"Spoofing Detected: "` followed by the description. -/
theorem claim2_verdict_table (students : List Student) (result : ScanResult)
    (newId : String) (nowMs : Int) (today : CalDate) :
    (result.matchId = none ∨ result.matchId = some "" →
      (processScanResult students result newId nowMs today).1 = none) ∧
    (∀ mid, result.matchId = some mid → mid ≠ "" →
      (∀ s ∈ students, s.id ≠ mid) →
      (processScanResult students result newId nowMs today).1 = none) ∧
    (∀ mid, result.matchId = some mid → mid ≠ "" →
      (∃ s ∈ students, s.id = mid) → result.isRealPerson = true →
      ∃ rec, (processScanResult students result newId nowMs today).1 = some rec ∧
        rec.status = AttendanceStatus.PRESENT ∧
        rec.confidence = result.confidence ∧
        rec.emotion = some result.emotion ∧
        rec.notes = some result.description ∧
        rec.studentId = mid) ∧
    (∀ mid, result.matchId = some mid → mid ≠ "" →
      (∃ s ∈ students, s.id = mid) → result.isRealPerson = false →
      ∃ rec, (processScanResult students result newId nowMs today).1 = some rec ∧
        rec.status = AttendanceStatus.PROXY_ATTEMPT ∧
        rec.confidence = result.confidence ∧
        rec.emotion = some result.emotion ∧
        rec.notes = some ("Spoofing Detected: " ++ result.description) ∧
        rec.studentId = mid) := by
  refine ⟨?_, ?_, ?_, ?_⟩
  · rintro (h | h) <;> simp [processScanResult, h]
  · intro mid hmid hne hnone
    have hf : students.find? (fun s => s.id == mid) = none := by
      rw [List.find?_eq_none]
      intro s hs
      simp only [beq_iff_eq]
      exact hnone s hs
    simp [processScanResult, hmid, hne, hf]
  · rintro mid hmid hne ⟨s, hs, hsid⟩ hreal
    have hsome : (students.find? (fun s => s.id == mid)).isSome = true := by
      rw [List.find?_isSome]
      exact ⟨s, hs, by simp [hsid]⟩
    rcases Option.isSome_iff_exists.mp hsome with ⟨student, hst⟩
    have hstid : student.id = mid := by
      have := List.find?_some hst
      simpa using this
    have hout : (processScanResult students result newId nowMs today).1 =
        some { id := newId
               studentId := student.id
               studentName := student.name
               timestamp := nowMs
               date := today
               status := AttendanceStatus.PRESENT
               confidence := result.confidence
               emotion := some result.emotion
               notes := some result.description } := by
      simp [processScanResult, hmid, hne, hst, hreal]
    exact ⟨_, hout, rfl, rfl, rfl, rfl, hstid⟩
  · rintro mid hmid hne ⟨s, hs, hsid⟩ hreal
    have hsome : (students.find? (fun s => s.id == mid)).isSome = true := by
      rw [List.find?_isSome]
      exact ⟨s, hs, by simp [hsid]⟩
    rcases Option.isSome_iff_exists.mp hsome with ⟨student, hst⟩
    have hstid : student.id = mid := by
      have := List.find?_some hst
      simpa using this
    have hout : (processScanResult students result newId nowMs today).1 =
        some { id := newId
               studentId := student.id
               studentName := student.name
               timestamp := nowMs
               date := today
               status := AttendanceStatus.PROXY_ATTEMPT
               confidence := result.confidence
               emotion := some result.emotion
               notes := some ("Spoofing Detected: " ++ result.description) } := by
      simp [processScanResult, hmid, hne, hst, hreal]
    exact ⟨_, hout, rfl, rfl, rfl, rfl, hstid⟩

/-- A normal registered student used by several witnesses. -/
def studentS101 : Student :=
  { id := "s101"
    name := "Asha"
    rollNumber := "7"
    classSection := "7-C"
    photoUrl := "p"
    registeredAt := "r" }

/-- A liveness-passing verdict matching `studentS101`. -/
def presentVerdict : ScanResult :=
  { matchId := some "s101"
    confidence := 92/100
    isRealPerson := true
    emotion := "Focused"
    description := "clear match" }

/-- A liveness-failing verdict matching `studentS101`. -/
def proxyVerdict : ScanResult :=
  { presentVerdict with isRealPerson := false }

/-- A verdict whose non-empty `matchId` matches no registered student. -/
def unknownVerdict : ScanResult :=
  { presentVerdict with matchId := some "zz", description := "no one" }

/-- A verdict with a `null` `matchId`. -/
def noMatchVerdict : ScanResult :=
  { presentVerdict with matchId := none, description := "no one" }

/-- A fixed scan date used by the witnesses. -/
def witnessDate : CalDate := { year := 2024, month := 5, day := 10 }

/-- Witness for the amended C2, exercising all four rows of the table on
concrete verdicts. -/
theorem claim2_verdict_table_witness :
    ((processScanResult [studentS101] noMatchVerdict "9" 0 witnessDate).1 = none) ∧
    ((processScanResult [studentS101] unknownVerdict "9" 0 witnessDate).1 = none) ∧
    (∃ rec, (processScanResult [studentS101] presentVerdict "9" 0 witnessDate).1 = some rec ∧
      rec.status = AttendanceStatus.PRESENT ∧
      rec.confidence = presentVerdict.confidence ∧
      rec.emotion = some presentVerdict.emotion ∧
      rec.notes = some presentVerdict.description ∧
      rec.studentId = "s101") ∧
    (∃ rec, (processScanResult [studentS101] proxyVerdict "9" 0 witnessDate).1 = some rec ∧
      rec.status = AttendanceStatus.PROXY_ATTEMPT ∧
      rec.confidence = proxyVerdict.confidence ∧
      rec.emotion = some proxyVerdict.emotion ∧
      rec.notes = some ("Spoofing Detected: " ++ proxyVerdict.description) ∧
      rec.studentId = "s101") := by
  refine ⟨?_, ?_, ?_, ?_⟩
  · exact (claim2_verdict_table [studentS101] noMatchVerdict "9" 0 witnessDate).1
      (Or.inl rfl)
  · exact (claim2_verdict_table [studentS101] unknownVerdict "9" 0 witnessDate).2.1
      "zz" rfl (by decide) (by decide)
  · exact (claim2_verdict_table [studentS101] presentVerdict "9" 0 witnessDate).2.2.1
      "s101" rfl (by decide) ⟨studentS101, by simp, rfl⟩ rfl
  · exact (claim2_verdict_table [studentS101] proxyVerdict "9" 0 witnessDate).2.2.2
      "s101" rfl (by decide) ⟨studentS101, by simp, rfl⟩ rfl

/-- Counterexample to C7 as stated: for a verdict whose non-empty
`matchId` matches no student, the source produces no event but also emits
no log line, whereas a `null` `matchId` logs the verdict's description —
so the unknown-id outcome is not identical to the `null` outcome. -/
theorem claim7_counterexample :
    processScanResult [studentS101] unknownVerdict "9" 0 witnessDate =
      (none, []) ∧
    processScanResult [studentS101] noMatchVerdict "9" 0 witnessDate =
      (none, ["ℹ️ no one"]) ∧
    ([] : List String) ≠ ["ℹ️ no one"] := by
  refine ⟨rfl, rfl, by simp⟩

/-- C7 (amended): an unrecognized non-empty `matchId` produces no event
and raises no error, like a `null` `matchId`; but unlike the `null` case
it emits no "no match" log line at all. -/
theorem claim7_unknown_match (students : List Student) (result : ScanResult)
    (newId : String) (nowMs : Int) (today : CalDate) (mid : String)
    (hmid : result.matchId = some mid) (hne : mid ≠ "")
    (hnone : ∀ s ∈ students, s.id ≠ mid) :
    processScanResult students result newId nowMs today = (none, []) := by
  have hf : students.find? (fun s => s.id == mid) = none := by
    rw [List.find?_eq_none]
    intro s hs
    simp only [beq_iff_eq]
    exact hnone s hs
  simp [processScanResult, hmid, hne, hf]

/-- Witness for the amended C7 at a concrete unknown id. -/
theorem claim7_unknown_match_witness :
    processScanResult [studentS101] unknownVerdict "9" 0 witnessDate =
      (none, []) :=
  claim7_unknown_match [studentS101] unknownVerdict "9" 0 witnessDate "zz"
    rfl (by decide) (by decide)

/-- `filteredStudents` from `App.tsx`: with no logged-in user the list is
empty; a teacher with a truthy (present, nonempty) `assignedClass` sees
only students of that class (`s.classSection === currentUser.assignedClass`);
everyone else — admins, and teachers with a missing or empty class — sees
all students. -/
def filteredStudents (students : List Student)
    (currentUser : Option User) : List Student :=
  match currentUser with
  | none => []
  | some u =>
    match u.role, u.assignedClass with
    | Role.teacher, some c =>
      if c == "" then students
      else students.filter (fun s => s.classSection == c)
    | _, _ => students

/-- `filteredRecords` from `App.tsx`: for a teacher with a truthy
`assignedClass` the visible-student id-set is recomputed from the
unfiltered `students` registry and the ledger is filtered by membership
(`classStudentIds.includes(r.studentId)`); everyone else sees all
records. -/
def filteredRecords (records : List AttendanceRecord)
    (students : List Student) (currentUser : Option User) :
    List AttendanceRecord :=
  match currentUser with
  | none => []
  | some u =>
    match u.role, u.assignedClass with
    | Role.teacher, some c =>
      if c == "" then records
      else
        let classStudentIds :=
          (students.filter (fun s => s.classSection == c)).map (fun s => s.id)
        records.filter (fun r => classStudentIds.contains r.studentId)
    | _, _ => records

/-- A teacher whose `assignedClass` is the empty string. -/
def emptyClassTeacher : User :=
  { username := "t0"
    password := "pw"
    name := "T Zero"
    role := Role.teacher
    assignedClass := some "" }

/-- Counterexample to C4 as stated: for a teacher actor whose
`assignedClass` is the empty string, `filterStudents` returns the whole
registry — including a student whose `classSection` is not equal to the
teacher's `assignedClass` — because the source guards the filter with the
JS-truthiness of `assignedClass`. -/
theorem claim4_counterexample :
    emptyClassTeacher.role = Role.teacher ∧
    filteredStudents [studentS101] (some emptyClassTeacher) = [studentS101] ∧
    ¬ some studentS101.classSection = emptyClassTeacher.assignedClass := by
  refine ⟨rfl, rfl, by decide⟩

/-- C4 (amended): admins see students and records unchanged; a teacher
with a present, nonempty `assignedClass` sees exactly the students of
that class, and exactly the events whose `studentId` belongs to some
student of that class in the unfiltered registry at filter time.  (A
teacher with a missing or empty `assignedClass` instead sees everything;
see C10.) -/
theorem claim4_visibility (students : List Student)
    (records : List AttendanceRecord) (u : User) (c : String) :
    (u.role = Role.admin →
      filteredStudents students (some u) = students ∧
      filteredRecords records students (some u) = records) ∧
    (u.role = Role.teacher → u.assignedClass = some c → c ≠ "" →
      filteredStudents students (some u) =
        students.filter (fun s => s.classSection == c) ∧
      filteredRecords records students (some u) =
        records.filter (fun r =>
          decide (∃ s ∈ students, s.classSection = c ∧ s.id = r.studentId))) := by
  constructor
  · intro hrole
    simp only [filteredStudents, filteredRecords]
    rw [hrole]
    exact ⟨rfl, rfl⟩
  · intro hrole hclass hne
    have hc : (c == "") = false := by
      simpa using hne
    simp only [filteredStudents, filteredRecords]
    rw [hrole, hclass]
    simp only [hc, Bool.false_eq_true, if_false]
    refine ⟨trivial, ?_⟩
    apply List.filter_congr
    intro r hr
    rw [Bool.eq_iff_iff]
    simp only [List.contains_iff_exists_mem_beq, List.mem_map, List.mem_filter,
      beq_iff_eq, decide_eq_true_eq]
    constructor
    · rintro ⟨i, ⟨s, ⟨hs, hcls⟩, hid⟩, hbeq⟩
      exact ⟨s, hs, hcls, by rw [hid, ← hbeq]⟩
    · rintro ⟨s, hs, hcls, hid⟩
      exact ⟨s.id, ⟨s, ⟨hs, hcls⟩, rfl⟩, by rw [hid]⟩

/-- A second student in another class section. -/
def studentB : Student :=
  { id := "s202"
    name := "Bina"
    rollNumber := "2"
    classSection := "10-B"
    photoUrl := "q"
    registeredAt := "r2" }

/-- A teacher assigned to class `7-C`. -/
def teacher7C : User :=
  { username := "t7c"
    password := "pw"
    name := "Ms Seven"
    role := Role.teacher
    assignedClass := some "7-C" }

/-- An admin user distinct from the bootstrap admin. -/
def plainAdmin : User :=
  { username := "a1"
    password := "pw"
    name := "Admin One"
    role := Role.admin
    assignedClass := none }

/-- An attendance event of `studentB` (class `10-B`). -/
def eventForB : AttendanceRecord :=
  { sampleEvent with id := "6", studentId := "s202", studentName := "Bina" }

/-- Witness for the amended C4: over the same two-class data, the admin
sees everything, and the `7-C` teacher sees exactly the `7-C` student and
exactly that student's event. -/
theorem claim4_visibility_witness :
    (filteredStudents [studentS101, studentB] (some plainAdmin) =
        [studentS101, studentB] ∧
      filteredRecords [sampleEvent, eventForB] [studentS101, studentB]
          (some plainAdmin) = [sampleEvent, eventForB]) ∧
    (filteredStudents [studentS101, studentB] (some teacher7C) =
        [studentS101, studentB].filter (fun s => s.classSection == "7-C") ∧
      filteredRecords [sampleEvent, eventForB] [studentS101, studentB]
          (some teacher7C) =
        [sampleEvent, eventForB].filter (fun r =>
          decide (∃ s ∈ [studentS101, studentB],
            s.classSection = "7-C" ∧ s.id = r.studentId))) :=
  ⟨(claim4_visibility [studentS101, studentB] [sampleEvent, eventForB]
      plainAdmin "7-C").1 rfl,
    (claim4_visibility [studentS101, studentB] [sampleEvent, eventForB]
      teacher7C "7-C").2 rfl rfl (by decide)⟩

/-- A teacher with no `assignedClass` at all. -/
def classlessTeacher : User :=
  { username := "t1"
    password := "pw"
    name := "T One"
    role := Role.teacher
    assignedClass := none }

/-- C10: a teacher whose `assignedClass` is absent or the empty string is
not filtered at all: they see the full student registry and every ledger
record, exactly as an admin does. -/
theorem claim10_teacher_without_class (students : List Student)
    (records : List AttendanceRecord) (u : User)
    (hrole : u.role = Role.teacher)
    (hclass : u.assignedClass = none ∨ u.assignedClass = some "") :
    filteredStudents students (some u) = students ∧
    filteredRecords records students (some u) = records := by
  simp only [filteredStudents, filteredRecords]
  rw [hrole]
  rcases hclass with h | h <;> rw [h] <;> exact ⟨rfl, rfl⟩

/-- Witness for C10 at both concrete degenerate teachers. -/
theorem claim10_teacher_without_class_witness :
    (filteredStudents [studentS101, studentB] (some classlessTeacher) =
        [studentS101, studentB] ∧
      filteredRecords [sampleEvent, eventForB] [studentS101, studentB]
          (some classlessTeacher) = [sampleEvent, eventForB]) ∧
    (filteredStudents [studentS101, studentB] (some emptyClassTeacher) =
        [studentS101, studentB] ∧
      filteredRecords [sampleEvent, eventForB] [studentS101, studentB]
          (some emptyClassTeacher) = [sampleEvent, eventForB]) :=
  ⟨claim10_teacher_without_class [studentS101, studentB]
      [sampleEvent, eventForB] classlessTeacher rfl (Or.inl rfl),
    claim10_teacher_without_class [studentS101, studentB]
      [sampleEvent, eventForB] emptyClassTeacher rfl (Or.inr rfl)⟩

/-- The component state of `LiveScanner.tsx` that the scan path touches:
camera active flag, the single-flight `isProcessing` flag, auto-scan mode,
the last analyzer result, the rolling log list, and the attendance ledger
reached through the `onMarkAttendance` callback into `App.tsx`. -/
structure ScannerState where
  isActive : Bool
  isProcessing : Bool
  autoMode : Bool
  lastScanResult : Option ScanResult
  logs : List String
  records : List AttendanceRecord
deriving DecidableEq

deriving instance DecidableEq for Except

/-- The external inputs consumed by one `handleScan` call: whether the
video and canvas refs and the 2d context are available, the analyzer
outcome (`analyzeFrame` either resolves to a `ScanResult` or throws), and
the clock values used to build a new record. -/
structure ScanEnv where
  hasVideo : Bool
  hasCanvas : Bool
  hasCtx : Bool
  analysis : Except Unit ScanResult
  newId : String
  nowMs : Int
  today : CalDate
deriving DecidableEq

/-- `addLog` from `LiveScanner.tsx`: prepend and keep the 10 newest. -/
def addLog (logs : List String) (msg : String) : List String :=
  (msg :: logs).take 10

/-- `handleScan` from `LiveScanner.tsx`, as one atomic step given the
analyzer outcome.  The guard
`if (!videoRef.current || !canvasRef.current || isProcessing) return;`
rejects the call outright; otherwise `isProcessing` is raised, the frame
is analyzed, the verdict branch runs (`processScanResult`), any produced
event goes through `onMarkAttendance` (the ledger dedup append), and the
`finally` block lowers `isProcessing` again. -/
def handleScan (students : List Student) (s : ScannerState)
    (env : ScanEnv) : ScannerState :=
  if !env.hasVideo || !env.hasCanvas || s.isProcessing then s
  else
    let s1 := { s with
      isProcessing := true
      logs := addLog s.logs "Scanning frame..." }
    let s2 :=
      if !env.hasCtx then s1
      else
        match env.analysis with
        | Except.error _ => { s1 with logs := addLog s1.logs "❌ Scan failed: AI Error" }
        | Except.ok result =>
          let s3 := { s1 with lastScanResult := some result }
          match processScanResult students result env.newId env.nowMs env.today with
          | (some record, lgs) =>
            { s3 with
              records := handleMarkAttendance s3.records record
              logs := lgs.foldl addLog s3.logs }
          | (none, lgs) => { s3 with logs := lgs.foldl addLog s3.logs }
    { s2 with isProcessing := false }

/-- The auto-scan effect of `LiveScanner.tsx`: the 8-second timer is only
installed while `isActive && autoMode && !isProcessing`, and each tick
just invokes `handleScan` (whose own guard applies again). -/
def autoTick (students : List Student) (s : ScannerState)
    (env : ScanEnv) : ScannerState :=
  if s.isActive && s.autoMode && !s.isProcessing then
    handleScan students s env
  else s

/-- C3: single-flight — while a scan is in progress, a further `scan()`
invocation (manual or from the auto timer) is a complete no-op: the state,
and in particular the ledger, is returned unchanged and no analysis
side effects occur. -/
theorem claim3_single_flight (students : List Student) (s : ScannerState)
    (env : ScanEnv) (h : s.isProcessing = true) :
    handleScan students s env = s ∧ autoTick students s env = s := by
  constructor
  · unfold handleScan
    rw [h]
    simp
  · unfold autoTick
    rw [h]
    simp

/-- A concrete mid-scan state for the C3 witness. -/
def busyState : ScannerState :=
  { isActive := true
    isProcessing := true
    autoMode := true
    lastScanResult := none
    logs := ["Scanning frame..."]
    records := [sampleEvent] }

/-- A concrete environment whose analysis would succeed and match
`studentS101`, to show the rejected call really ignores it. -/
def liveEnv : ScanEnv :=
  { hasVideo := true
    hasCanvas := true
    hasCtx := true
    analysis := Except.ok presentVerdict
    newId := "9"
    nowMs := 36010000
    today := witnessDate }

/-- Witness for C3: the busy state rejects both a manual and an auto-timer
scan even though the environment would produce a fresh PRESENT event. -/
theorem claim3_single_flight_witness :
    handleScan [studentS101] busyState liveEnv = busyState ∧
    autoTick [studentS101] busyState liveEnv = busyState :=
  claim3_single_flight [studentS101] busyState liveEnv rfl

/-- Substring test on character lists, embedding JS `String.includes`
(true whenever the needle — possibly empty — occurs contiguously). -/
def listContainsSub (needle : List Char) : List Char → Bool
  | [] => needle.isEmpty
  | c :: t => needle.isPrefixOf (c :: t) || listContainsSub needle t

/-- Case-insensitive containment, embedding
`hay.toLowerCase().includes(needle.toLowerCase())` from the report search
box (lower-casing character by character). -/
def strContainsLower (hay needle : String) : Bool :=
  listContainsSub (needle.toList.map Char.toLower)
    (hay.toList.map Char.toLower)

/-- One row of the monthly report table of `Reports.tsx`. -/
structure MonthlyStat where
  student : Student
  present : Nat
  absent : Int
  percentage : Int
deriving DecidableEq

/-- The per-student body of the `students.map` in `monthlyStats`
(`Reports.tsx`): count this student's PRESENT events among the month's
records; `absent` is total scanned days minus that, clamped at zero;
`percentage` is `Math.round((present / totalDays) * 100)` (exact rational
rounding here; the source computes it in floating point). -/
def monthlyStatFor (monthRecords : List AttendanceRecord) (totalDays : Nat)
    (student : Student) : MonthlyStat :=
  let studentRecords := monthRecords.filter (fun r => r.studentId == student.id)
  let presentCount :=
    (studentRecords.filter (fun r => r.status == AttendanceStatus.PRESENT)).length
  let absentCount : Int := (totalDays : Int) - (presentCount : Int)
  { student := student
    present := presentCount
    absent := if absentCount < 0 then 0 else absentCount
    percentage :=
      if totalDays == 0 then 0
      else round ((presentCount : ℚ) / (totalDays : ℚ) * 100) }

/-- `monthlyStats` from `Reports.tsx`: keep the records of the selected
month, count the distinct scan dates (`new Set(...).size`), build one row
per student, and filter rows by the (case-insensitive) name search
term. -/
def monthlyStats (records : List AttendanceRecord) (students : List Student)
    (year month : Nat) (searchTerm : String) : List MonthlyStat :=
  let monthRecords := records.filter (fun r =>
    r.date.year == year && r.date.month == month)
  let totalDays := (monthRecords.map (fun r => r.date)).dedup.length
  (students.map (monthlyStatFor monthRecords totalDays)).filter
    (fun stat => strContainsLower stat.student.name searchTerm)

/-- Number of PRESENT events of one student falling in the given month —
the spec's `presentDays` reading of the code (events, not distinct
days). -/
def presentEventCount (records : List AttendanceRecord) (sid : String)
    (year month : Nat) : Nat :=
  records.countP (fun r => decide (r.date.year = year ∧
    r.date.month = month ∧ r.studentId = sid ∧
    r.status = AttendanceStatus.PRESENT))

/-- Number of distinct `date` values in the ledger falling in the given
month, across all students — the spec's `totalScannedDays`. -/
def totalScannedDays (records : List AttendanceRecord)
    (year month : Nat) : Nat :=
  (((records.filter (fun r => decide (r.date.year = year ∧
    r.date.month = month))).map (fun r => r.date)).toFinset).card

theorem listContainsSub_nil_needle (hay : List Char) :
    listContainsSub [] hay = true := by
  cases hay <;> rfl

theorem strContainsLower_empty_needle (hay : String) :
    strContainsLower hay "" = true := by
  have h0 : ("" : String).toList.map Char.toLower = ([] : List Char) := rfl
  unfold strContainsLower
  rw [h0]
  exact listContainsSub_nil_needle _

theorem monthlyStatFor_student (mr : List AttendanceRecord) (td : Nat)
    (s : Student) : (monthlyStatFor mr td s).student = s := rfl

theorem monthlyStatFor_present (mr : List AttendanceRecord) (td : Nat)
    (s : Student) :
    (monthlyStatFor mr td s).present =
      ((mr.filter (fun r => r.studentId == s.id)).filter
        (fun r => r.status == AttendanceStatus.PRESENT)).length := rfl

theorem monthlyStatFor_absent (mr : List AttendanceRecord) (td : Nat)
    (s : Student) :
    (monthlyStatFor mr td s).absent =
      if ((td : Int) - ((monthlyStatFor mr td s).present : Int)) < 0 then 0
      else (td : Int) - ((monthlyStatFor mr td s).present : Int) := rfl

theorem if_neg_clamp (x : Int) : (if x < 0 then 0 else x) = max 0 x := by
  rw [max_def]
  split_ifs <;> omega

set_option maxHeartbeats 1000000 in
/-- C6: with an empty search term, row `i` of the monthly report belongs
to student `i`; its `present` count is the number of that student's
PRESENT events in the month, and its `absent` count is
`max 0 (totalScannedDays - present)` where `totalScannedDays` counts the
distinct scan dates of the month over all students. -/
theorem claim6_monthly_aggregation (records : List AttendanceRecord)
    (students : List Student) (year month : Nat) (i : Nat)
    (hi : i < students.length) :
    ∃ stat, (monthlyStats records students year month "")[i]? = some stat ∧
      stat.student = students[i] ∧
      stat.present = presentEventCount records students[i].id year month ∧
      stat.absent =
        max 0 ((totalScannedDays records year month : Int) -
          (stat.present : Int)) := by
  have hfe : records.filter (fun r => decide (r.date.year = year ∧
        r.date.month = month)) =
      records.filter (fun r => r.date.year == year && r.date.month == month) := by
    apply List.filter_congr
    intro r _
    rw [Bool.eq_iff_iff]
    simp [Bool.and_eq_true, beq_iff_eq, decide_eq_true_eq]
  have htotal : totalScannedDays records year month =
      ((records.filter (fun r => r.date.year == year && r.date.month == month)).map
        (fun r => r.date)).dedup.length := by
    unfold totalScannedDays
    rw [List.card_toFinset, hfe]
  have hms : monthlyStats records students year month "" =
      students.map (monthlyStatFor
        (records.filter (fun r => r.date.year == year && r.date.month == month))
        ((records.filter (fun r => r.date.year == year && r.date.month == month)).map
          (fun r => r.date)).dedup.length) := by
    unfold monthlyStats
    exact List.filter_eq_self.mpr (fun a _ => strContainsLower_empty_needle _)
  have hpresent : (monthlyStatFor
        (records.filter (fun r => r.date.year == year && r.date.month == month))
        ((records.filter (fun r => r.date.year == year && r.date.month == month)).map
          (fun r => r.date)).dedup.length students[i]).present =
      presentEventCount records students[i].id year month := by
    rw [monthlyStatFor_present]
    unfold presentEventCount
    rw [List.countP_eq_length_filter, List.filter_filter, List.filter_filter]
    congr 1
    apply List.filter_congr
    intro r _
    rw [Bool.eq_iff_iff]
    simp only [Bool.and_eq_true, beq_iff_eq, decide_eq_true_eq]
    tauto
  refine ⟨monthlyStatFor
      (records.filter (fun r => r.date.year == year && r.date.month == month))
      ((records.filter (fun r => r.date.year == year && r.date.month == month)).map
        (fun r => r.date)).dedup.length students[i], ?_, ?_, hpresent, ?_⟩
  · rw [hms, List.getElem?_map, List.getElem?_eq_getElem hi]
    rfl
  · exact monthlyStatFor_student _ _ _
  · rw [monthlyStatFor_absent, hpresent, if_neg_clamp, htotal]

/-- A second scan date in May 2024 with `studentS101` present. -/
def mayEvent2 : AttendanceRecord :=
  { sampleEvent with
    id := "7"
    date := { year := 2024, month := 5, day := 11 } }

/-- A third scan date in May 2024 where only `studentB` was scanned. -/
def mayEvent3 : AttendanceRecord :=
  { eventForB with
    id := "8"
    date := { year := 2024, month := 5, day := 12 } }

/-- Witness for C6: three distinct scan dates in May 2024, student
`s101` present on two of them — their row reports `present = 2` and
`absent = max 0 (3 - 2) = 1`. -/
theorem claim6_monthly_aggregation_witness :
    presentEventCount [sampleEvent, mayEvent2, mayEvent3] "s101" 2024 5 = 2 ∧
    totalScannedDays [sampleEvent, mayEvent2, mayEvent3] 2024 5 = 3 ∧
    (0 < ([studentS101, studentB] : List Student).length ∧
      ∃ stat,
        (monthlyStats [sampleEvent, mayEvent2, mayEvent3]
          [studentS101, studentB] 2024 5 "")[0]? = some stat ∧
        stat.student = [studentS101, studentB][0] ∧
        stat.present = presentEventCount [sampleEvent, mayEvent2, mayEvent3]
          ([studentS101, studentB][0]).id 2024 5 ∧
        stat.absent = max 0
          ((totalScannedDays [sampleEvent, mayEvent2, mayEvent3] 2024 5 : Int) -
            (stat.present : Int))) :=
  ⟨by decide, by decide,
    by decide,
    claim6_monthly_aggregation [sampleEvent, mayEvent2, mayEvent3]
      [studentS101, studentB] 2024 5 0 (by decide)⟩

/-- The reference list actually forwarded to the analyzer by
`analyzeFrame` in `services/geminiService.ts`: with no registered students
the function returns early (nothing is sent); otherwise
`registeredStudents.slice(0, 5)` is sent. -/
def forwardedReferences (registeredStudents : List Student) : List Student :=
  if registeredStudents.length == 0 then []
  else registeredStudents.take 5

/-- C9: pools of at most 5 students are forwarded whole; larger pools are
truncated to exactly their first 5 elements in insertion order. -/
theorem claim9_reference_cap (pool : List Student) :
    (pool.length ≤ 5 → forwardedReferences pool = pool) ∧
    (5 < pool.length →
      (forwardedReferences pool).length = 5 ∧
      ∀ i, i < 5 → (forwardedReferences pool)[i]? = pool[i]?) := by
  constructor
  · intro h
    by_cases hz : pool.length = 0
    · rw [List.length_eq_zero] at hz
      subst hz
      rfl
    · have hcond : (pool.length == 0) = false := by simpa using hz
      simp only [forwardedReferences, hcond, Bool.false_eq_true, if_false]
      exact List.take_of_length_le h
  · intro h
    have hcond : (pool.length == 0) = false := by
      simp only [beq_eq_false_iff_ne, ne_eq]
      omega
    simp only [forwardedReferences, hcond, Bool.false_eq_true, if_false]
    constructor
    · rw [List.length_take]
      omega
    · intro i hi5
      exact List.getElem?_take_of_lt hi5

/-- Witness for C9: a 3-element pool passes through unchanged; a
6-element pool is cut to length 5 while keeping its head entries. -/
theorem claim9_reference_cap_witness :
    forwardedReferences (List.replicate 3 studentS101) =
      List.replicate 3 studentS101 ∧
    (forwardedReferences (List.replicate 6 studentS101)).length = 5 ∧
    (forwardedReferences (List.replicate 6 studentS101))[0]? =
      (List.replicate 6 studentS101)[0]? :=
  ⟨(claim9_reference_cap _).1 (by decide),
    ((claim9_reference_cap _).2 (by decide)).1,
    ((claim9_reference_cap _).2 (by decide)).2 0 (by decide)⟩

/-- `handleAddUser` from `App.tsx`: `setUsers(prev => [...prev, newUser])`. -/
def handleAddUser (users : List User) (newUser : User) : List User :=
  users ++ [newUser]

/-- `handleEditUser` from `App.tsx`: replace the user with the matching
username. -/
def handleEditUser (users : List User) (updatedUser : User) : List User :=
  users.map (fun u =>
    if u.username == updatedUser.username then updatedUser else u)

/-- `handleDeleteUser` from `App.tsx`: drop the user with that username. -/
def handleDeleteUser (users : List User) (username : String) : List User :=
  users.filter (fun u => !(u.username == username))

/-- A user-management gesture available from `AdminPanel.tsx`. -/
inductive UserOp where
  | add (user : User)
  | edit (user : User)
  | delete (username : String)
deriving DecidableEq

/-- The `AdminPanel.tsx` gate in front of each operation: `handleUserSubmit`
requires nonempty username/password/name, a (truthy) assigned class for
teachers, and a fresh username when creating; editing is only offered for
listed users and the username field is disabled while editing; the delete
button is only rendered when the target is neither `'prahald'` nor the
logged-in admin. -/
def uiAllowed (users : List User) (currentUser : User) : UserOp → Bool
  | UserOp.add u =>
      !(u.username == "") && !(u.password == "") && !(u.name == "") &&
      (!(u.role == Role.teacher) || jsTruthy u.assignedClass) &&
      !(users.any (fun x => x.username == u.username))
  | UserOp.edit u =>
      !(u.username == "") && !(u.password == "") && !(u.name == "") &&
      (!(u.role == Role.teacher) || jsTruthy u.assignedClass) &&
      users.any (fun x => x.username == u.username)
  | UserOp.delete uname =>
      !(uname == "prahald") && !(uname == currentUser.username)

/-- Dispatch one gesture to the matching `App.tsx` handler. -/
def applyUserOp (users : List User) : UserOp → List User
  | UserOp.add u => handleAddUser users u
  | UserOp.edit u => handleEditUser users u
  | UserOp.delete uname => handleDeleteUser users uname

/-- Run a sequence of gestures; a gesture the UI does not permit leaves
the user list untouched. -/
def runUserOps (users : List User) (currentUser : User) :
    List UserOp → List User
  | [] => users
  | op :: ops =>
      runUserOps
        (if uiAllowed users currentUser op then applyUserOp users op
          else users)
        currentUser ops

/-- The bootstrap admin demoted to a class teacher by an edit. -/
def demotedAdmin : User :=
  { username := "prahald"
    password := "Prahlad@12"
    name := "Prahlad (Super Admin)"
    role := Role.teacher
    assignedClass := some "10-A" }

/-- Counterexample to C8 as stated: one UI-permitted edit gesture changes
the bootstrap admin's role to teacher, after which no user carries both
username `'prahald'` and role admin — only deletion is guarded, not
editing. -/
theorem claim8_counterexample :
    runUserOps [SUPER_ADMIN] SUPER_ADMIN [UserOp.edit demotedAdmin] =
      [demotedAdmin] ∧
    ¬ ∃ u ∈ runUserOps [SUPER_ADMIN] SUPER_ADMIN [UserOp.edit demotedAdmin],
        u.username = "prahald" ∧ u.role = Role.admin := by
  refine ⟨by decide, by decide⟩

/-- C8 (amended): a user named `'prahald'` survives every sequence of
UI-permitted operations: the delete button is never rendered for it, adds
only extend the list, and edits replace a user by one with the same
username — but an edit may change its role (and other fields), so only
presence by username, not `role = admin`, is invariant. -/
theorem claim8_bootstrap_presence (users : List User) (currentUser : User)
    (ops : List UserOp) (h : ∃ u ∈ users, u.username = "prahald") :
    ∃ u ∈ runUserOps users currentUser ops, u.username = "prahald" := by
  induction ops generalizing users with
  | nil => exact h
  | cons op ops ih =>
    show ∃ u ∈ runUserOps
      (if uiAllowed users currentUser op then applyUserOp users op
        else users) currentUser ops, u.username = "prahald"
    apply ih
    by_cases hal : uiAllowed users currentUser op = true
    · rw [if_pos hal]
      obtain ⟨w, hw, hwn⟩ := h
      cases op with
      | add u =>
        exact ⟨w, List.mem_append_left _ hw, hwn⟩
      | edit u =>
        by_cases he : (w.username == u.username) = true
        · refine ⟨u, List.mem_map.mpr ⟨w, hw, by rw [if_pos he]⟩, ?_⟩
          rw [beq_iff_eq] at he
          rw [← he, hwn]
        · exact ⟨w, List.mem_map.mpr ⟨w, hw, by rw [if_neg he]⟩, hwn⟩
      | delete uname =>
        have hne : (uname == "prahald") = false := by
          simp only [uiAllowed, Bool.and_eq_true, Bool.not_eq_true'] at hal
          exact hal.1
        refine ⟨w, List.mem_filter.mpr ⟨hw, ?_⟩, hwn⟩
        simp only [Bool.not_eq_true', beq_eq_false_iff_ne, ne_eq]
        intro hcontra
        rw [hwn] at hcontra
        rw [hcontra] at hne
        simp at hne
    · rw [if_neg hal]
      exact h

/-- Witness for the amended C8: starting from the bootstrap list, an add,
a (guard-rejected and a permitted) delete and even the role-demoting edit
leave a user named `'prahald'` in place. -/
theorem claim8_bootstrap_presence_witness :
    (∃ u ∈ [SUPER_ADMIN], u.username = "prahald") ∧
    ∃ u ∈ runUserOps [SUPER_ADMIN] SUPER_ADMIN
        [UserOp.add teacher7C, UserOp.delete "prahald",
          UserOp.delete "t7c", UserOp.edit demotedAdmin],
      u.username = "prahald" :=
  ⟨⟨SUPER_ADMIN, by simp, rfl⟩,
    claim8_bootstrap_presence [SUPER_ADMIN] SUPER_ADMIN
      [UserOp.add teacher7C, UserOp.delete "prahald",
        UserOp.delete "t7c", UserOp.edit demotedAdmin]
      ⟨SUPER_ADMIN, by simp, rfl⟩⟩
